import Mathlib

/-!
Shallow embedding of the xwayback launcher (src/xwayback/xwayback.c together
with src/common/wayback_log.c): the static option table and the pass-through
argument filter, the verbosity operand parsing, the Wayland bootstrap event
reducer that populates the output registry, the output selection policy, and
the ordered post-bootstrap session steps (spawns, environment edits,
supervision).  Machine integers are modelled as Nat or Int with explicit
reduction modulo 2^32 or 2^64 where C conversions occur.
-/

set_option maxRecDepth 4000

namespace Wayback

/-- Operand arity of a CLI option, mirroring the flag field of struct optcmd. -/
inductive OptFlag where
  | OPT_NOFLAG
  | OPT_OPERAND
  | OPT_NUM
deriving DecidableEq

/-- Entry of the static option table built in main (struct optcmd: name, flag,
ignore).  The description string is not modelled: no claim reads it. -/
structure Optcmd where
  name : String
  flag : OptFlag
  ignore : Bool
deriving DecidableEq

/-- Linear scan of the option table for an exact strcmp match; the first
matching entry wins (the inner for loop with break in main, lines 466-474). -/
def findOpt (opts : List Optcmd) (t : String) : Option Optcmd :=
  opts.find? (fun o => o.name == t)

/-- Pass-through filter of main, lines 465-478: each token that exactly matches
a table entry is dropped; if the matching entry has flag OPT_OPERAND and a
following token exists (the i + 1 < argc bound check), that token is dropped
too; every non-matching token is forwarded verbatim in order. -/
def filterArgs (opts : List Optcmd) : List String → List String
  | [] => []
  | t :: rest =>
    match findOpt opts t with
    | none => t :: filterArgs opts rest
    | some o =>
      if o.flag = OptFlag.OPT_OPERAND then
        match rest with
        | [] => []
        | _ :: rest2 => filterArgs opts rest2
      else
        filterArgs opts rest

/-- Static option table of main (lines 228-297), in source order.  The three
names written with U+2010 hyphens after the leading ASCII dash are kept
verbatim.  Note the duplicate "-verbose" entry at the end. -/
def xwaybackOpts : List Optcmd := [
  { name := "-showconfig", flag := .OPT_NOFLAG, ignore := false },
  { name := "-version", flag := .OPT_NOFLAG, ignore := false },
  { name := "-verbose", flag := .OPT_OPERAND, ignore := false },
  { name := "-novtswitch", flag := .OPT_NOFLAG, ignore := false },
  { name := "-decorate", flag := .OPT_NOFLAG, ignore := true },
  { name := "-enable‐ei‐portal", flag := .OPT_NOFLAG, ignore := true },
  { name := "-fullscreen", flag := .OPT_NOFLAG, ignore := true },
  { name := "-geometry", flag := .OPT_OPERAND, ignore := true },
  { name := "-glamor", flag := .OPT_OPERAND, ignore := true },
  { name := "-hidpi", flag := .OPT_NOFLAG, ignore := true },
  { name := "-host‐grab", flag := .OPT_NOFLAG, ignore := true },
  { name := "-noTouchPointerEmulation", flag := .OPT_NOFLAG, ignore := true },
  { name := "-force‐xrandr‐emulation", flag := .OPT_NOFLAG, ignore := true },
  { name := "-nokeymap", flag := .OPT_NOFLAG, ignore := true },
  { name := "-rootless", flag := .OPT_NOFLAG, ignore := true },
  { name := "-shm", flag := .OPT_NOFLAG, ignore := true },
  { name := "-wm", flag := .OPT_OPERAND, ignore := true },
  { name := "vt", flag := .OPT_NUM, ignore := true },
  { name := "-allowMouseOpenFail", flag := .OPT_NOFLAG, ignore := true },
  { name := "-allowNonLocalXvidtune", flag := .OPT_NOFLAG, ignore := true },
  { name := "-bgamma", flag := .OPT_OPERAND, ignore := true },
  { name := "-bpp", flag := .OPT_OPERAND, ignore := true },
  { name := "-config", flag := .OPT_OPERAND, ignore := true },
  { name := "-configdir", flag := .OPT_OPERAND, ignore := true },
  { name := "-configure", flag := .OPT_OPERAND, ignore := true },
  { name := "-crt", flag := .OPT_OPERAND, ignore := true },
  { name := "-depth", flag := .OPT_OPERAND, ignore := true },
  { name := "-disableVidMode", flag := .OPT_NOFLAG, ignore := true },
  { name := "-fbbbp", flag := .OPT_OPERAND, ignore := true },
  { name := "-gamma", flag := .OPT_OPERAND, ignore := true },
  { name := "-ggamma", flag := .OPT_OPERAND, ignore := true },
  { name := "-ignoreABI", flag := .OPT_NOFLAG, ignore := true },
  { name := "-isolateDevice", flag := .OPT_OPERAND, ignore := true },
  { name := "-keeptty", flag := .OPT_NOFLAG, ignore := true },
  { name := "-keyboard", flag := .OPT_OPERAND, ignore := true },
  { name := "-layout", flag := .OPT_OPERAND, ignore := true },
  { name := "-logverbose", flag := .OPT_OPERAND, ignore := true },
  { name := "-modulepath", flag := .OPT_OPERAND, ignore := true },
  { name := "-noautoBindCPU", flag := .OPT_NOFLAG, ignore := true },
  { name := "-nosilk", flag := .OPT_NOFLAG, ignore := true },
  { name := "-pointer", flag := .OPT_OPERAND, ignore := true },
  { name := "-quiet", flag := .OPT_NOFLAG, ignore := true },
  { name := "-rgamma", flag := .OPT_OPERAND, ignore := true },
  { name := "-sharevts", flag := .OPT_NOFLAG, ignore := true },
  { name := "-screen", flag := .OPT_OPERAND, ignore := true },
  { name := "-showDefaultModulePath", flag := .OPT_NOFLAG, ignore := true },
  { name := "-showDefaultLibPath", flag := .OPT_NOFLAG, ignore := true },
  { name := "-showopts", flag := .OPT_NOFLAG, ignore := true },
  { name := "-weight", flag := .OPT_OPERAND, ignore := true },
  { name := "-verbose", flag := .OPT_OPERAND, ignore := true }
]

/-- Whitespace class of C isspace, as skipped by strtol before the sign. -/
def isSpaceChar (c : Char) : Bool :=
  c = ' ' || c = '\t' || c = '\n' || c = '\x0b' || c = '\x0c' || c = '\r'

/-- Decimal digit test used by the strtol model. -/
def isDigitChar (c : Char) : Bool :=
  '0' ≤ c && c ≤ '9'

/-- Largest value of a 64-bit long, the clamp bound of strtol. -/
def LONG_MAX : Int := 2 ^ 63 - 1

/-- Smallest value of a 64-bit long, the clamp bound of strtol. -/
def LONG_MIN : Int := -(2 ^ 63)

/-- Model of glibc strtol with base 10 on a 64-bit long: skip leading
whitespace, read an optional sign, read the longest run of decimal digits
(zero digits yield value 0 with errno untouched), and clamp to the long range
setting ERANGE (the returned Bool) when the mathematical value overflows. -/
def strtol10 (s : String) : Int × Bool :=
  let cs := s.data.dropWhile isSpaceChar
  let signed : Bool × List Char :=
    match cs with
    | '-' :: r => (true, r)
    | '+' :: r => (false, r)
    | r => (false, r)
  let ds := signed.2.takeWhile isDigitChar
  let n : Nat := ds.foldl (fun a c => a * 10 + (c.toNat - 48)) 0
  let v : Int := if signed.1 then -(n : Int) else (n : Int)
  if v > LONG_MAX then (LONG_MAX, true)
  else if v < LONG_MIN then (LONG_MIN, true)
  else (v, false)

/-- Fatality test of the -verbose operand in main, lines 315-323: the strtol
value must lie in [0, 20] and errno must still be clear afterwards (errno is
assumed clear on entry; glibc strtol sets it only on ERANGE overflow).  A true
result means the launcher logs an error and exits with status 1. -/
def verbosityFatal (s : String) : Bool :=
  let r := strtol10 s
  decide (r.1 < 0) || decide (r.1 > 20) || r.2

/-- C conversion of an int32_t value into a uint32_t field, as performed by
the assignments to the width, height, x and y members of struct xway_output. -/
def toU32 (v : Int) : Nat :=
  (v % (2 ^ 32)).toNat

/-- State of one struct xway_output.  calloc zero-initialization gives the
defaults: NULL strings are none, numeric fields are 0, and xdgBound records
whether a zxdg_output_v1 object was requested for this output (the xdg_output
pointer being non NULL). -/
structure XwayOutput where
  wl_name : Nat
  name : Option String := none
  description : Option String := none
  make : Option String := none
  model : Option String := none
  width : Nat := 0
  height : Nat := 0
  x : Nat := 0
  y : Nat := 0
  physical_width : Int := 0
  physical_height : Int := 0
  subpixel : Int := 0
  transform : Int := 0
  scale : Int := 0
  refreshMilliHz : Int := 0
  xdgBound : Bool := false
deriving DecidableEq

/-- State of struct xwayback during bootstrap: outputs are stored in wl_list
order, newest first, because handle_global inserts at the list head; the
provisional default first_output is recorded by its registry name. -/
structure XwaybackState where
  hasXdgManager : Bool := false
  outputs : List XwayOutput := []
  firstOutput : Option Nat := none
deriving DecidableEq

/-- Wayland events the bootstrap client can receive, one constructor per
listener callback in xwayback.c plus the two registry global announcements.
Every per-output event carries the registry name of the output it targets. -/
inductive WlEvent where
  | globalOutput (name : Nat)
  | globalXdgManager (name : Nat)
  | geometry (target : Nat) (x y width_mm height_mm subpixel : Int)
      (make model : Option String) (transform : Int)
  | mode (target : Nat) (flags : Nat) (width height refresh : Int)
  | scale (target : Nat) (factor : Int)
  | logicalPosition (target : Nat) (x y : Int)
  | logicalSize (target : Nat) (width height : Int)
  | xdgName (target : Nat) (s : String)
  | xdgDescription (target : Nat) (s : String)
deriving DecidableEq

/-- Apply a mutation to the targeted output, leaving the rest unchanged. -/
def updateOutput (st : XwaybackState) (target : Nat) (f : XwayOutput → XwayOutput) :
    XwaybackState :=
  { st with outputs := st.outputs.map (fun o => if o.wl_name = target then f o else o) }

/-- Event reducer for the bootstrap client.  globalOutput mirrors the
wl_output branch of handle_global (lines 188-200): the new output is
zero-initialized, prepended to the list, becomes first_output when none is
set, and receives an extended binding (add_xdg_output) exactly when the
xdg-output manager is already bound.  globalXdgManager mirrors lines 201-204:
it only binds the manager; no retroactive add_xdg_output is issued for
already-known outputs.  The remaining constructors mirror the wl_output and
zxdg_output_v1 listener callbacks; the extended callbacks can only fire for
an output whose zxdg_output_v1 object exists, hence the xdgBound guards. -/
def applyEvent (st : XwaybackState) (e : WlEvent) : XwaybackState :=
  match e with
  | .globalOutput n =>
    let o : XwayOutput := { wl_name := n, xdgBound := st.hasXdgManager }
    { st with
      outputs := o :: st.outputs,
      firstOutput := match st.firstOutput with
        | none => some n
        | some m => some m }
  | .globalXdgManager _ => { st with hasXdgManager := true }
  | .geometry t _ _ wmm hmm sub mk mdl tr =>
    updateOutput st t (fun o =>
      { o with physical_width := wmm, physical_height := hmm,
               make := mk, model := mdl, subpixel := sub, transform := tr })
  | .mode t _ w h r =>
    updateOutput st t (fun o =>
      { o with refreshMilliHz := r, width := toU32 w, height := toU32 h })
  | .scale t f =>
    updateOutput st t (fun o => { o with scale := f })
  | .logicalPosition t px py =>
    updateOutput st t (fun o =>
      if o.xdgBound then { o with x := toU32 px, y := toU32 py } else o)
  | .logicalSize t w h =>
    updateOutput st t (fun o =>
      if o.xdgBound then { o with height := toU32 h, width := toU32 w } else o)
  | .xdgName t s =>
    updateOutput st t (fun o => if o.xdgBound then { o with name := some s } else o)
  | .xdgDescription t s =>
    updateOutput st t (fun o => if o.xdgBound then { o with description := some s } else o)

/-- State after the two wl_display_roundtrip barriers (lines 420-421): every
event of the bootstrap, delivered in order to the empty initial state. -/
def runEvents (es : List WlEvent) : XwaybackState :=
  es.foldl applyEvent {}

/-- Label match of the WAYBACK_OUTPUT override loop (lines 428-430): the
"make model" concatenation built by asprintf equals the label, or the make
alone equals it.  A NULL make or model is undefined behaviour in the C code
(strcmp on NULL); the placeholder mirrors the glibc "(null)" rendering and
the theorems about selection only concern outputs with both strings set. -/
def labelMatches (o : XwayOutput) (lbl : String) : Bool :=
  (o.make.getD "(null)" ++ " " ++ o.model.getD "(null)") = lbl
    || o.make.getD "(null)" = lbl

/-- Selection of first_output after bootstrap (lines 423-433): without an
override label the provisional default stands; with one, the wl_list loop
walks the stored outputs (newest first) and overwrites first_output on every
match, so the last stored match, i.e. the earliest registered one, wins. -/
def selectFirst (st : XwaybackState) (label : Option String) : Option Nat :=
  match label with
  | none => st.firstOutput
  | some lbl =>
    st.outputs.foldl (fun acc o => if labelMatches o lbl then some o.wl_name else acc)
      st.firstOutput

/-- Dereference of the selected first_output pointer: the current descriptor
with the recorded registry name. -/
def lookupSelected (st : XwaybackState) (label : Option String) : Option XwayOutput :=
  (selectFirst st label).bind (fun n => st.outputs.find? (fun o => o.wl_name = n))

/-- Process environment as an association list, first binding wins (the
search order of getenv). -/
abbrev Env := List (String × String)

/-- Value of a variable in the environment. -/
def envLookup (e : Env) (k : String) : Option String :=
  (e.find? (fun p => p.1 = k)).map (fun p => p.2)

/-- Effect of unsetenv: every binding of the name is removed. -/
def envUnset (e : Env) (k : String) : Env :=
  e.filter (fun p => ¬ p.1 = k)

/-- Effect of setenv with overwrite: the new binding shadows and replaces any
previous one. -/
def envSet (e : Env) (k v : String) : Env :=
  (k, v) :: envUnset e k

/-- Observable actions of main between the first posix_spawn and the final
return, in program order: each spawn records the exact environment handed to
the child, and waitComp records the exit status of the compositor that the
blocking waitid call observes (and discards, its infop argument being NULL). -/
inductive MAct where
  | spawnComp (env : Env)
  | unsetVar (k : String)
  | setVar (k v : String)
  | spawnXway (env : Env)
  | waitComp (status : Nat)
  | logError (msg : String)
deriving DecidableEq

/-- True exactly for a spawnXway action. -/
def MAct.isSpawnXway : MAct → Bool
  | .spawnXway _ => true
  | _ => false

/-- True exactly for an error-level log action. -/
def MAct.isLogError : MAct → Bool
  | .logError _ => true
  | _ => false

/-- Result of the session segment: the ordered action trace and the process
exit status of the launcher. -/
structure SessionRun where
  trace : List MAct
  exitCode : Nat
deriving DecidableEq

/-- Session segment of main from the first posix_spawn to the final return
(lines 392-495), in source order: spawn the compositor with the inherited
environment, unset WAYLAND_DISPLAY then WAYLAND_SOCKET, connect, run the two
bootstrap roundtrips, select first_output honouring the WAYBACK_OUTPUT
override, fail fatally when it is NULL, set WAYLAND_SOCKET to the Xwayland
socket descriptor, spawn Xwayland with the updated environment, block on the
compositor's exit, and return 0.  The three Bool parameters stand for the
success of the compositor posix_spawn, of wl_display_connect_to_fd, and of
the Xwayland posix_spawn; each failure branch logs one error and exits 1. -/
def sessionTrace (env : Env) (compOk connectOk xwayOk : Bool) (es : List WlEvent)
    (label : Option String) (fdXwayland : Nat) (compStatus : Nat) : SessionRun :=
  if ¬ compOk then
    { trace := [.logError "Failed to launch wayback-compositor"], exitCode := 1 }
  else
    let t1 : List MAct :=
      [.spawnComp env, .unsetVar "WAYLAND_DISPLAY", .unsetVar "WAYLAND_SOCKET"]
    let env1 := envUnset (envUnset env "WAYLAND_DISPLAY") "WAYLAND_SOCKET"
    if ¬ connectOk then
      { trace := t1 ++ [.logError "Unable to connect to wayback-compositor"], exitCode := 1 }
    else
      match lookupSelected (runEvents es) label with
      | none => { trace := t1 ++ [.logError "Unable to get outputs"], exitCode := 1 }
      | some _ =>
        let sockVal := toString fdXwayland
        let env2 := envSet env1 "WAYLAND_SOCKET" sockVal
        let t2 := t1 ++ [.setVar "WAYLAND_SOCKET" sockVal]
        if ¬ xwayOk then
          { trace := t2 ++ [.logError "Failed to launch Xwayland"], exitCode := 1 }
        else
          { trace := t2 ++ [.spawnXway env2, .waitComp compStatus], exitCode := 0 }

/-- Modelled from the spec: the optparse scanner itself is declared in the
missing header optparse.h, so its iteration order is taken from section 4.4
of the spec: tokens are scanned left to right, a token exactly matching a
table entry is consumed, and a consumed operand-bearing option also consumes
its following operand token, so that operands are never themselves scanned as
options.  What happens at each returned match is taken from main, lines
307-343, which is in src: -version and -showconfig terminate the scan by
exiting 0; -verbose reads the slot argv at cur_opt + 1 unconditionally (none
models the terminating NULL pointer at argv of argc) and a fatal operand
value exits 1.  The result collects, in order, every operand-slot read the
scan performs for -verbose. -/
def scanReads : List String → List (Option String)
  | [] => []
  | t :: rest =>
    match findOpt xwaybackOpts t with
    | none => scanReads rest
    | some o =>
      if t = "-version" ∨ t = "-showconfig" then []
      else if t = "-verbose" then
        match rest with
        | [] => [none]
        | s :: rest2 => some s :: (if verbosityFatal s then [] else scanReads rest2)
      else if o.flag = OptFlag.OPT_OPERAND then
        match rest with
        | [] => []
        | _ :: rest2 => scanReads rest2
      else scanReads rest

/-- Modelled from the spec, companion to scanReads: the scan of this token
list consumes exactly these tokens and falls through the option loop without
exiting, so that a token appended after the list would be examined next and
never stolen as an operand of the last listed token. -/
def scanFallsThrough : List String → Bool
  | [] => true
  | t :: rest =>
    match findOpt xwaybackOpts t with
    | none => scanFallsThrough rest
    | some o =>
      if t = "-version" ∨ t = "-showconfig" then false
      else if t = "-verbose" then
        match rest with
        | [] => false
        | s :: rest2 => !verbosityFatal s && scanFallsThrough rest2
      else if o.flag = OptFlag.OPT_OPERAND then
        match rest with
        | [] => false
        | _ :: rest2 => scanFallsThrough rest2
      else scanFallsThrough rest

/-- True exactly for a wl_output registry announcement. -/
def WlEvent.isGlobalOutput : WlEvent → Bool
  | .globalOutput _ => true
  | _ => false

/-- Small option table used to instantiate the table-generic filter theorems
on a concrete input. -/
def demoOpts : List Optcmd :=
  [{ name := "-geometry", flag := .OPT_OPERAND, ignore := true }]

/-- First display of the selection example: vendor Acme, model X1. -/
def acmeX1 : XwayOutput :=
  { wl_name := 1, make := some "Acme", model := some "X1" }

/-- Second display of the selection example: vendor Acme, model X2. -/
def acmeX2 : XwayOutput :=
  { wl_name := 2, make := some "Acme", model := some "X2" }

/-! Unfolding lemmas for the pass-through filter, one per shape of the
source loop body. -/

theorem filterArgs_cons (opts : List Optcmd) (t : String) (rest : List String) :
    filterArgs opts (t :: rest) =
      match findOpt opts t with
      | none => t :: filterArgs opts rest
      | some o =>
        if o.flag = OptFlag.OPT_OPERAND then
          (match rest with
           | [] => []
           | _ :: rest2 => filterArgs opts rest2)
        else filterArgs opts rest := by
  cases rest with
  | nil => rw [filterArgs.eq_2]
  | cons t2 rest2 => rw [filterArgs.eq_3]

theorem filterArgs_cons_none (opts : List Optcmd) (t : String) (rest : List String)
    (h : findOpt opts t = none) :
    filterArgs opts (t :: rest) = t :: filterArgs opts rest := by
  rw [filterArgs_cons, h]

theorem filterArgs_operand_nil (opts : List Optcmd) (t : String) (o : Optcmd)
    (h : findOpt opts t = some o) (hf : o.flag = OptFlag.OPT_OPERAND) :
    filterArgs opts [t] = [] := by
  rw [filterArgs_cons, h]
  simp [hf]

theorem filterArgs_operand_cons (opts : List Optcmd) (t t2 : String) (rest2 : List String)
    (o : Optcmd) (h : findOpt opts t = some o) (hf : o.flag = OptFlag.OPT_OPERAND) :
    filterArgs opts (t :: t2 :: rest2) = filterArgs opts rest2 := by
  rw [filterArgs_cons, h]
  simp [hf]

theorem filterArgs_cons_matched_other (opts : List Optcmd) (t : String) (rest : List String)
    (o : Optcmd) (h : findOpt opts t = some o) (hf : ¬ o.flag = OptFlag.OPT_OPERAND) :
    filterArgs opts (t :: rest) = filterArgs opts rest := by
  rw [filterArgs_cons, h]
  simp [hf]

/-- Every token surviving the pass-through filter matches no table entry. -/
theorem findOpt_of_mem_filterArgs (opts : List Optcmd) :
    ∀ ts : List String, ∀ s ∈ filterArgs opts ts, findOpt opts s = none := by
  intro ts
  induction ts using filterArgs.induct opts with
  | case1 => intro s hs; simp [filterArgs] at hs
  | case2 t rest hfind ih =>
    intro s hs
    rw [filterArgs_cons_none opts t rest hfind] at hs
    rcases List.mem_cons.mp hs with h | h
    · exact h ▸ hfind
    · exact ih s h
  | case3 t o hfind hflag =>
    intro s hs
    rw [filterArgs_operand_nil opts t o hfind hflag] at hs
    simp at hs
  | case4 t o hfind hflag t2 rest2 ih =>
    intro s hs
    rw [filterArgs_operand_cons opts t t2 rest2 o hfind hflag] at hs
    exact ih s hs
  | case5 t rest o hfind hflag ih =>
    intro s hs
    rw [filterArgs_cons_matched_other opts t rest o hfind hflag] at hs
    exact ih s hs

/-- A token sequence with no table match passes through unchanged. -/
theorem filterArgs_eq_self (opts : List Optcmd) :
    ∀ ts : List String, (∀ s ∈ ts, findOpt opts s = none) → filterArgs opts ts = ts := by
  intro ts
  induction ts with
  | nil => intro _; rfl
  | cons t rest ih =>
    intro h
    have ht := h t (List.mem_cons_self t rest)
    rw [filterArgs_cons_none opts t rest ht,
        ih (fun s hs => h s (List.mem_cons_of_mem t hs))]

/-- Appending a matching final token never changes the filtered output: the
token is consumed and cannot steal an operand past the end. -/
theorem filterArgs_append_matched (opts : List Optcmd) (v : String) (ov : Optcmd)
    (hv : findOpt opts v = some ov) :
    ∀ ts : List String, filterArgs opts (ts ++ [v]) = filterArgs opts ts := by
  intro ts
  induction ts using filterArgs.induct opts with
  | case1 =>
    simp only [List.nil_append, filterArgs.eq_1]
    by_cases hf : ov.flag = OptFlag.OPT_OPERAND
    · exact filterArgs_operand_nil opts v ov hv hf
    · rw [filterArgs_cons_matched_other opts v [] ov hv hf, filterArgs.eq_1]
  | case2 t rest hfind ih =>
    rw [List.cons_append, filterArgs_cons_none opts t (rest ++ [v]) hfind,
        filterArgs_cons_none opts t rest hfind, ih]
  | case3 t o hfind hflag =>
    rw [List.cons_append, List.nil_append,
        filterArgs_operand_cons opts t v [] o hfind hflag,
        filterArgs_operand_nil opts t o hfind hflag, filterArgs.eq_1]
  | case4 t o hfind hflag t2 rest2 ih =>
    rw [List.cons_append, List.cons_append,
        filterArgs_operand_cons opts t t2 (rest2 ++ [v]) o hfind hflag,
        filterArgs_operand_cons opts t t2 rest2 o hfind hflag, ih]
  | case5 t rest o hfind hflag ih =>
    rw [List.cons_append,
        filterArgs_cons_matched_other opts t (rest ++ [v]) o hfind hflag,
        filterArgs_cons_matched_other opts t rest o hfind hflag, ih]

/-- The filtered output is an order-preserving sublist of the input. -/
theorem filterArgs_sublist (opts : List Optcmd) :
    ∀ ts : List String, List.Sublist (filterArgs opts ts) ts := by
  intro ts
  induction ts using filterArgs.induct opts with
  | case1 => simp [filterArgs]
  | case2 t rest hfind ih =>
    rw [filterArgs_cons_none opts t rest hfind]
    exact List.Sublist.cons₂ t ih
  | case3 t o hfind hflag =>
    rw [filterArgs_operand_nil opts t o hfind hflag]
    exact List.nil_sublist _
  | case4 t o hfind hflag t2 rest2 ih =>
    rw [filterArgs_operand_cons opts t t2 rest2 o hfind hflag]
    exact ih.trans ((List.sublist_cons_self _ _).trans (List.sublist_cons_self _ _))
  | case5 t rest o hfind hflag ih =>
    rw [filterArgs_cons_matched_other opts t rest o hfind hflag]
    exact ih.trans (List.sublist_cons_self _ _)

/-- C6: for every token sequence and OptionSpec table, the pass-through
filter is idempotent: filtering the already-filtered output returns it
unchanged. -/
theorem C6_filter_idempotent (opts : List Optcmd) (ts : List String) :
    filterArgs opts (filterArgs opts ts) = filterArgs opts ts :=
  filterArgs_eq_self opts (filterArgs opts ts) (findOpt_of_mem_filterArgs opts ts)

/-- C7: a required-operand option as the last token is consumed bare without
reaching past the end of the sequence, the output is an order-preserving
sublist of the input, and every surviving token matches no table entry. -/
theorem C7_trailing_operand_option (opts : List Optcmd) (ts : List String) (t : String)
    (o : Optcmd) (h : findOpt opts t = some o) (hf : o.flag = OptFlag.OPT_OPERAND) :
    filterArgs opts (ts ++ [t]) = filterArgs opts ts ∧
    List.Sublist (filterArgs opts (ts ++ [t])) (ts ++ [t]) ∧
    ∀ s ∈ filterArgs opts (ts ++ [t]), findOpt opts s = none :=
  ⟨filterArgs_append_matched opts t o h ts,
   filterArgs_sublist opts (ts ++ [t]),
   findOpt_of_mem_filterArgs opts (ts ++ [t])⟩

/-- Witness for C7 at a concrete input: "-geometry" as final token of the
sequence ["foo", "-geometry"] against the one-entry table. -/
theorem C7_witness :
    filterArgs demoOpts (["foo"] ++ ["-geometry"]) = filterArgs demoOpts ["foo"] ∧
    List.Sublist (filterArgs demoOpts (["foo"] ++ ["-geometry"])) (["foo"] ++ ["-geometry"]) ∧
    ∀ s ∈ filterArgs demoOpts (["foo"] ++ ["-geometry"]), findOpt demoOpts s = none :=
  C7_trailing_operand_option demoOpts ["foo"] "-geometry"
    { name := "-geometry", flag := .OPT_OPERAND, ignore := true } (by decide) rfl

/-- The override loop folds over the stored outputs overwriting first_output
on every match, so it yields the last stored match, i.e. the first match of
the reversed (registration-ordered) list. -/
theorem foldl_select (lbl : String) :
    ∀ (l : List XwayOutput) (d : Option Nat),
      l.foldl (fun acc o => if labelMatches o lbl then some o.wl_name else acc) d =
        match l.reverse.find? (fun o => labelMatches o lbl) with
        | some o => some o.wl_name
        | none => d := by
  intro l
  induction l with
  | nil => intro d; rfl
  | cons o l ih =>
    intro d
    rw [List.foldl_cons, ih]
    rw [List.reverse_cons, List.find?_append]
    cases hfind : l.reverse.find? (fun o => labelMatches o lbl) with
    | some o2 => simp [Option.or]
    | none =>
      by_cases hmatch : labelMatches o lbl
      · simp [hmatch, Option.or]
      · simp [hmatch, Option.or]

/-- C5: for a non-empty registry, stored newest-first with the first-registered
display as provisional default, selection with an override label returns the
first match in registration order (vendor string or "vendor model"
concatenation), and the default when nothing matches. -/
theorem C5_select_first_match (rs : List XwayOutput) (hx : Bool) (lbl : String)
    (hne : rs ≠ []) :
    selectFirst { hasXdgManager := hx, outputs := rs.reverse,
                  firstOutput := rs.head?.map (fun o => o.wl_name) } (some lbl) =
      match rs.find? (fun o => labelMatches o lbl) with
      | some o => some o.wl_name
      | none => rs.head?.map (fun o => o.wl_name) := by
  have hdef : selectFirst { hasXdgManager := hx, outputs := rs.reverse,
                            firstOutput := rs.head?.map (fun o => o.wl_name) } (some lbl) =
      (rs.reverse).foldl (fun acc o => if labelMatches o lbl then some o.wl_name else acc)
        (rs.head?.map (fun o => o.wl_name)) := rfl
  rw [hdef, foldl_select lbl rs.reverse, List.reverse_reverse]

/-- Witness for C5 on the spec's example: displays Acme X1 then Acme X2 in
registration order; label "Acme X2" selects the second display, label "Acme"
selects the first. -/
theorem C5_witness :
    ([acmeX1, acmeX2] : List XwayOutput) ≠ [] ∧
    selectFirst { hasXdgManager := false, outputs := [acmeX1, acmeX2].reverse,
                  firstOutput := [acmeX1, acmeX2].head?.map (fun o => o.wl_name) }
        (some "Acme X2") = some 2 ∧
    selectFirst { hasXdgManager := false, outputs := [acmeX1, acmeX2].reverse,
                  firstOutput := [acmeX1, acmeX2].head?.map (fun o => o.wl_name) }
        (some "Acme") = some 1 := by
  refine ⟨by decide, ?_, ?_⟩
  · rw [C5_select_first_match [acmeX1, acmeX2] false "Acme X2" (by decide)]
    decide
  · rw [C5_select_first_match [acmeX1, acmeX2] false "Acme" (by decide)]
    decide

/-- C4 (code_bug evaluation): the spec demands that a -verbose operand that is
not parsable as an integer be a fatal usage error, but on the non-numeric
operand "abc" glibc strtol returns 0 without touching errno, so the range
check passes and the launcher continues with verbosity 0; the out-of-range
operands -1 and 21 are rejected as the claim states, and 0 and 20 are
accepted. -/
theorem C4_code_eval :
    verbosityFatal "abc" = false ∧ strtol10 "abc" = (0, false) ∧
    verbosityFatal "-1" = true ∧ verbosityFatal "21" = true ∧
    verbosityFatal "0" = false ∧ verbosityFatal "20" = false := by
  decide

/-- C2 (code_bug evaluation): when the xdg-output manager global arrives after
an output is already known, handle_global records the manager but issues no
retroactive get_xdg_output request, so the already-known display keeps
xdgBound = false even though the capability was advertised; with the opposite
announcement order the display is bound, which is what the claim requires in
both orders. -/
theorem C2_code_eval :
    (runEvents [.globalOutput 1, .globalXdgManager 2]).hasXdgManager = true ∧
    (runEvents [.globalOutput 1, .globalXdgManager 2]).outputs =
      [{ wl_name := 1, xdgBound := false }] ∧
    (runEvents [.globalXdgManager 2, .globalOutput 1]).outputs =
      [{ wl_name := 1, xdgBound := true }] := by
  decide

/-- C9 (code_bug evaluation): with the capability advertised after the display,
the extended events are never delivered (no binding exists), so after both
barriers every extended field still holds its zero-initialized default even
though the capability was advertised, contradicting the claim's second half;
with the capability advertised first the fields are populated, and a bootstrap
without any extended information still exits successfully, confirming the
claim's first half that this is not an error. -/
theorem C9_code_eval :
    (runEvents [.globalOutput 1, .globalXdgManager 2, .logicalPosition 1 10 20,
        .logicalSize 1 800 600, .xdgName 1 "HDMI-1", .xdgDescription 1 "desc"]).outputs =
      [{ wl_name := 1 }] ∧
    (runEvents [.globalOutput 1, .globalXdgManager 2, .logicalPosition 1 10 20,
        .logicalSize 1 800 600, .xdgName 1 "HDMI-1", .xdgDescription 1 "desc"]).hasXdgManager
      = true ∧
    (runEvents [.globalXdgManager 2, .globalOutput 1, .logicalPosition 1 10 20,
        .logicalSize 1 800 600, .xdgName 1 "HDMI-1", .xdgDescription 1 "desc"]).outputs =
      [{ wl_name := 1, name := some "HDMI-1", description := some "desc",
         width := 800, height := 600, x := 10, y := 20, xdgBound := true }] ∧
    (sessionTrace [] true true true [.globalOutput 1] none 5 0).exitCode = 0 := by
  decide

/-- C1 (counterexample): in a session whose compositor is spawned successfully
and later exits with status 3, the launcher still returns 0, so the launcher's
exit code is not the compositor's own exit status and the claimed equivalence
(exit 0 iff the compositor exited 0) fails. -/
theorem C1_counterexample :
    (sessionTrace [] true true true [.globalOutput 1] none 7 3).trace.getLast? =
      some (.waitComp 3) ∧
    (sessionTrace [] true true true [.globalOutput 1] none 7 3).exitCode = 0 ∧
    (sessionTrace [] true true true [.globalOutput 1] none 7 3).exitCode ≠ 3 := by
  decide

/-- C3 (counterexample): starting from an environment that still carries the
inherited WAYLAND_DISPLAY, the very first session action is the compositor
spawn with exactly that environment, so the environment passed to process 1
does contain the stale inherited value, contradicting the claim that the
variables are cleared before process 1 is spawned. -/
theorem C3_counterexample :
    (sessionTrace [("WAYLAND_DISPLAY", "wayland-0"), ("WAYLAND_SOCKET", "5")]
        true true true [.globalOutput 1] none 7 0).trace.head? =
      some (.spawnComp [("WAYLAND_DISPLAY", "wayland-0"), ("WAYLAND_SOCKET", "5")]) ∧
    envLookup [("WAYLAND_DISPLAY", "wayland-0"), ("WAYLAND_SOCKET", "5")] "WAYLAND_DISPLAY" =
      some "wayland-0" := by
  decide

/-! Scan lemmas: unfolding equations for scanReads and scanFallsThrough, one
per branch of the option loop. -/

theorem findOpt_verbose :
    findOpt xwaybackOpts "-verbose" =
      some { name := "-verbose", flag := .OPT_OPERAND, ignore := false } := by
  decide

theorem scanReads_cons_unmatched (t : String) (rest : List String)
    (h : findOpt xwaybackOpts t = none) :
    scanReads (t :: rest) = scanReads rest := by
  cases rest with
  | nil => rw [scanReads.eq_2, h]
  | cons s r => rw [scanReads.eq_3, h]

theorem scanReads_cons_exit (t : String) (rest : List String) (o : Optcmd)
    (h : findOpt xwaybackOpts t = some o) (hv : t = "-version" ∨ t = "-showconfig") :
    scanReads (t :: rest) = [] := by
  cases rest with
  | nil => simp only [scanReads.eq_2, h]; rw [if_pos hv]
  | cons s r => simp only [scanReads.eq_3, h]; rw [if_pos hv]

theorem scanReads_verbose_nil : scanReads ["-verbose"] = [none] := by
  decide

theorem scanReads_verbose_cons (s : String) (rest2 : List String) :
    scanReads ("-verbose" :: s :: rest2) =
      some s :: (if verbosityFatal s then [] else scanReads rest2) := by
  simp only [scanReads.eq_3, findOpt_verbose]
  simp

theorem scanReads_operand_nil (t : String) (o : Optcmd)
    (h : findOpt xwaybackOpts t = some o) (hnx : ¬(t = "-version" ∨ t = "-showconfig"))
    (hnv : ¬ t = "-verbose") (hf : o.flag = OptFlag.OPT_OPERAND) :
    scanReads [t] = [] := by
  simp only [scanReads.eq_2, h]
  rw [if_neg hnx, if_neg hnv, if_pos hf]

theorem scanReads_operand_cons (t s : String) (rest2 : List String) (o : Optcmd)
    (h : findOpt xwaybackOpts t = some o) (hnx : ¬(t = "-version" ∨ t = "-showconfig"))
    (hnv : ¬ t = "-verbose") (hf : o.flag = OptFlag.OPT_OPERAND) :
    scanReads (t :: s :: rest2) = scanReads rest2 := by
  simp only [scanReads.eq_3, h]
  rw [if_neg hnx, if_neg hnv, if_pos hf]

theorem scanReads_cons_other (t : String) (rest : List String) (o : Optcmd)
    (h : findOpt xwaybackOpts t = some o) (hnx : ¬(t = "-version" ∨ t = "-showconfig"))
    (hnv : ¬ t = "-verbose") (hf : ¬ o.flag = OptFlag.OPT_OPERAND) :
    scanReads (t :: rest) = scanReads rest := by
  cases rest with
  | nil =>
    simp only [scanReads.eq_2, h]
    rw [if_neg hnx, if_neg hnv, if_neg hf, scanReads.eq_1]
  | cons s r =>
    simp only [scanReads.eq_3, h]
    rw [if_neg hnx, if_neg hnv, if_neg hf]

theorem sft_cons_unmatched (t : String) (rest : List String)
    (h : findOpt xwaybackOpts t = none) :
    scanFallsThrough (t :: rest) = scanFallsThrough rest := by
  cases rest with
  | nil => rw [scanFallsThrough.eq_2, h]
  | cons s r => rw [scanFallsThrough.eq_3, h]

theorem sft_cons_exit (t : String) (rest : List String) (o : Optcmd)
    (h : findOpt xwaybackOpts t = some o) (hv : t = "-version" ∨ t = "-showconfig") :
    scanFallsThrough (t :: rest) = false := by
  cases rest with
  | nil => simp only [scanFallsThrough.eq_2, h]; rw [if_pos hv]
  | cons s r => simp only [scanFallsThrough.eq_3, h]; rw [if_pos hv]

theorem sft_verbose_nil : scanFallsThrough ["-verbose"] = false := by
  decide

theorem sft_verbose_cons (s : String) (rest2 : List String) :
    scanFallsThrough ("-verbose" :: s :: rest2) =
      (!verbosityFatal s && scanFallsThrough rest2) := by
  simp only [scanFallsThrough.eq_3, findOpt_verbose]
  simp

theorem sft_operand_nil (t : String) (o : Optcmd)
    (h : findOpt xwaybackOpts t = some o) (hnx : ¬(t = "-version" ∨ t = "-showconfig"))
    (hnv : ¬ t = "-verbose") (hf : o.flag = OptFlag.OPT_OPERAND) :
    scanFallsThrough [t] = false := by
  simp only [scanFallsThrough.eq_2, h]
  rw [if_neg hnx, if_neg hnv, if_pos hf]

theorem sft_operand_cons (t s : String) (rest2 : List String) (o : Optcmd)
    (h : findOpt xwaybackOpts t = some o) (hnx : ¬(t = "-version" ∨ t = "-showconfig"))
    (hnv : ¬ t = "-verbose") (hf : o.flag = OptFlag.OPT_OPERAND) :
    scanFallsThrough (t :: s :: rest2) = scanFallsThrough rest2 := by
  simp only [scanFallsThrough.eq_3, h]
  rw [if_neg hnx, if_neg hnv, if_pos hf]

theorem sft_cons_other (t : String) (rest : List String) (o : Optcmd)
    (h : findOpt xwaybackOpts t = some o) (hnx : ¬(t = "-version" ∨ t = "-showconfig"))
    (hnv : ¬ t = "-verbose") (hf : ¬ o.flag = OptFlag.OPT_OPERAND) :
    scanFallsThrough (t :: rest) = scanFallsThrough rest := by
  cases rest with
  | nil =>
    simp only [scanFallsThrough.eq_2, h]
    rw [if_neg hnx, if_neg hnv, if_neg hf, scanFallsThrough.eq_1]
  | cons s r =>
    simp only [scanFallsThrough.eq_3, h]
    rw [if_neg hnx, if_neg hnv, if_neg hf]

/-- Appending "-verbose" to a token list that the option loop scans to the end
adds exactly one more operand-slot read, and that read is the out-of-bounds
slot argv at argc, modelled as none. -/
theorem scanReads_append_verbose :
    ∀ ts : List String, scanFallsThrough ts = true →
      scanReads (ts ++ ["-verbose"]) = scanReads ts ++ [none] := by
  intro ts
  induction ts using scanFallsThrough.induct with
  | case1 =>
    intro _
    rw [List.nil_append, scanReads_verbose_nil, scanReads.eq_1, List.nil_append]
  | case2 t rest hfind ih =>
    intro hsft
    rw [sft_cons_unmatched t rest hfind] at hsft
    rw [List.cons_append, scanReads_cons_unmatched t (rest ++ ["-verbose"]) hfind,
        scanReads_cons_unmatched t rest hfind, ih hsft]
  | case3 t rest o hfind hv =>
    intro hsft
    rw [sft_cons_exit t rest o hfind hv] at hsft
    exact absurd hsft (by simp)
  | case4 o hfind hnx =>
    intro hsft
    rw [sft_verbose_nil] at hsft
    exact absurd hsft (by simp)
  | case5 o s rest2 hfind hnx ih =>
    intro hsft
    rw [sft_verbose_cons s rest2] at hsft
    have hfat : verbosityFatal s = false := by
      cases hfs : verbosityFatal s
      · rfl
      · rw [hfs] at hsft; simp at hsft
    have hrest : scanFallsThrough rest2 = true := by
      rw [hfat] at hsft; simpa using hsft
    rw [List.cons_append, List.cons_append,
        scanReads_verbose_cons s (rest2 ++ ["-verbose"]),
        scanReads_verbose_cons s rest2, hfat]
    simp only [Bool.false_eq_true, if_false]
    rw [ih hrest, List.cons_append]
  | case6 t o hfind hnx hnv hf =>
    intro hsft
    rw [sft_operand_nil t o hfind hnx hnv hf] at hsft
    exact absurd hsft (by simp)
  | case7 t o hfind hnx hnv hf s rest2 ih =>
    intro hsft
    rw [sft_operand_cons t s rest2 o hfind hnx hnv hf] at hsft
    rw [List.cons_append, List.cons_append,
        scanReads_operand_cons t s (rest2 ++ ["-verbose"]) o hfind hnx hnv hf,
        scanReads_operand_cons t s rest2 o hfind hnx hnv hf, ih hsft]
  | case8 t rest o hfind hnx hnv hf ih =>
    intro hsft
    rw [sft_cons_other t rest o hfind hnx hnv hf] at hsft
    rw [List.cons_append, scanReads_cons_other t (rest ++ ["-verbose"]) o hfind hnx hnv hf,
        scanReads_cons_other t rest o hfind hnx hnv hf, ih hsft]

/-- The only operand-slot read that goes out of bounds is the one for a
handled "-verbose" standing as the very last token: whenever the scan reads
the NULL slot, the token list ends in "-verbose". -/
theorem getLast_of_none_mem_scanReads :
    ∀ ts : List String, none ∈ scanReads ts → ts.getLast? = some "-verbose" := by
  intro ts
  induction ts using scanReads.induct with
  | case1 =>
    intro h
    rw [scanReads.eq_1] at h
    simp at h
  | case2 t rest hfind ih =>
    intro h
    rw [scanReads_cons_unmatched t rest hfind] at h
    have hlast := ih h
    cases rest with
    | nil => simp at hlast
    | cons a r => rw [List.getLast?_cons_cons]; exact hlast
  | case3 t rest o hfind hv =>
    intro h
    rw [scanReads_cons_exit t rest o hfind hv] at h
    simp at h
  | case4 o hfind hnx =>
    intro _
    rfl
  | case5 o s rest2 hfind hnx ih =>
    intro h
    rw [scanReads_verbose_cons s rest2] at h
    rcases List.mem_cons.mp h with h1 | h2
    · exact absurd h1 (by simp)
    · by_cases hfs : verbosityFatal s
      · rw [if_pos hfs] at h2; simp at h2
      · rw [if_neg hfs] at h2
        have hlast := ih h2
        cases rest2 with
        | nil => simp at hlast
        | cons a r =>
          rw [List.getLast?_cons_cons, List.getLast?_cons_cons]
          exact hlast
  | case6 t o hfind hnx hnv hf =>
    intro h
    rw [scanReads_operand_nil t o hfind hnx hnv hf] at h
    simp at h
  | case7 t o hfind hnx hnv hf s rest2 ih =>
    intro h
    rw [scanReads_operand_cons t s rest2 o hfind hnx hnv hf] at h
    have hlast := ih h
    cases rest2 with
    | nil => simp at hlast
    | cons a r =>
      rw [List.getLast?_cons_cons, List.getLast?_cons_cons]
      exact hlast
  | case8 t rest o hfind hnx hnv hf ih =>
    intro h
    rw [scanReads_cons_other t rest o hfind hnx hnv hf] at h
    have hlast := ih h
    cases rest with
    | nil => simp at hlast
    | cons a r => rw [List.getLast?_cons_cons]; exact hlast

/-- C10: the handled-option scan reads the operand slot one past a final
"-verbose" unconditionally (the none read models dereferencing argv at argc,
the terminating NULL pointer); the read stays in bounds exactly when a token
follows every handled "-verbose" occurrence, since an out-of-bounds read
forces the token list to end in "-verbose"; and unlike the scan, the
pass-through filter bound-checks the operand and consumes a final "-verbose"
without reaching past the end. -/
theorem C10_scan_reads_argv_end :
    (∀ ts : List String, scanFallsThrough ts = true →
        scanReads (ts ++ ["-verbose"]) = scanReads ts ++ [none]) ∧
    (∀ ts : List String, none ∈ scanReads ts → ts.getLast? = some "-verbose") ∧
    (∀ ts : List String, filterArgs xwaybackOpts (ts ++ ["-verbose"]) =
        filterArgs xwaybackOpts ts) :=
  ⟨scanReads_append_verbose, getLast_of_none_mem_scanReads,
   fun ts => filterArgs_append_matched xwaybackOpts "-verbose"
     { name := "-verbose", flag := .OPT_OPERAND, ignore := false } findOpt_verbose ts⟩

/-- Witness for C10: scanning ["foo"] falls through, and appending "-verbose"
makes the scan read the NULL slot. -/
theorem C10_witness :
    scanFallsThrough ["foo"] = true ∧
    scanReads (["foo"] ++ ["-verbose"]) = scanReads ["foo"] ++ [none] :=
  ⟨by decide, C10_scan_reads_argv_end.1 ["foo"] (by decide)⟩

/-- Any event other than a wl_output announcement leaves an empty registry
empty and the provisional default unset. -/
theorem applyEvent_non_output (st : XwaybackState) (e : WlEvent)
    (he : e.isGlobalOutput = false) (h1 : st.outputs = []) (h2 : st.firstOutput = none) :
    (applyEvent st e).outputs = [] ∧ (applyEvent st e).firstOutput = none := by
  cases e with
  | globalOutput n => simp [WlEvent.isGlobalOutput] at he
  | globalXdgManager n => exact ⟨h1, h2⟩
  | geometry t x y wmm hmm sub mk mdl tr => simp [applyEvent, updateOutput, h1, h2]
  | mode t f w h r => simp [applyEvent, updateOutput, h1, h2]
  | scale t f => simp [applyEvent, updateOutput, h1, h2]
  | logicalPosition t px py => simp [applyEvent, updateOutput, h1, h2]
  | logicalSize t w h => simp [applyEvent, updateOutput, h1, h2]
  | xdgName t s => simp [applyEvent, updateOutput, h1, h2]
  | xdgDescription t s => simp [applyEvent, updateOutput, h1, h2]

theorem foldl_no_outputs :
    ∀ (es : List WlEvent) (st : XwaybackState),
      (∀ e ∈ es, e.isGlobalOutput = false) → st.outputs = [] → st.firstOutput = none →
      (es.foldl applyEvent st).outputs = [] ∧ (es.foldl applyEvent st).firstOutput = none := by
  intro es
  induction es with
  | nil => intro st _ h1 h2; exact ⟨h1, h2⟩
  | cons e es ih =>
    intro st h h1 h2
    rw [List.foldl_cons]
    have he := applyEvent_non_output st e (h e (List.mem_cons_self e es)) h1 h2
    exact ih (applyEvent st e) (fun e2 he2 => h e2 (List.mem_cons_of_mem e he2)) he.1 he.2

/-- A bootstrap that never announces a wl_output global selects no display. -/
theorem lookupSelected_none (es : List WlEvent) (label : Option String)
    (h : ∀ e ∈ es, e.isGlobalOutput = false) :
    lookupSelected (runEvents es) label = none := by
  have h1 : (runEvents es).outputs = [] := foldl_no_outputs es {} h rfl rfl |>.1
  have h2 : (runEvents es).firstOutput = none := foldl_no_outputs es {} h rfl rfl |>.2
  unfold lookupSelected selectFirst
  rcases label with _ | lbl
  · rw [h2]
    rfl
  · rw [h1, h2]
    rfl

/-- With no display selected, the session segment logs the single error and
exits 1 before the Xwayland spawn. -/
theorem sessionTrace_fatal_no_outputs (env : Env) (es : List WlEvent)
    (label : Option String) (xwayOk : Bool) (fdXwayland compStatus : Nat)
    (h : lookupSelected (runEvents es) label = none) :
    sessionTrace env true true xwayOk es label fdXwayland compStatus =
      { trace := [.spawnComp env, .unsetVar "WAYLAND_DISPLAY", .unsetVar "WAYLAND_SOCKET",
                  .logError "Unable to get outputs"],
        exitCode := 1 } := by
  unfold sessionTrace
  rw [h]
  simp

/-- C8: when zero displays are advertised during bootstrap, the launcher exits
with status 1, emits exactly one error-level log line, and never spawns the
second process. -/
theorem C8_zero_displays (env : Env) (es : List WlEvent) (label : Option String)
    (xwayOk : Bool) (fdXwayland compStatus : Nat)
    (h : ∀ e ∈ es, e.isGlobalOutput = false) :
    (sessionTrace env true true xwayOk es label fdXwayland compStatus).exitCode = 1 ∧
    ((sessionTrace env true true xwayOk es label fdXwayland compStatus).trace.filter
        MAct.isLogError).length = 1 ∧
    (sessionTrace env true true xwayOk es label fdXwayland compStatus).trace.all
        (fun a => !a.isSpawnXway) = true := by
  rw [sessionTrace_fatal_no_outputs env es label xwayOk fdXwayland compStatus
    (lookupSelected_none es label h)]
  refine ⟨rfl, ?_, ?_⟩
  · rfl
  · rfl

/-- Witness for C8: a bootstrap announcing only the xdg-output manager. -/
theorem C8_witness :
    (∀ e ∈ ([WlEvent.globalXdgManager 1] : List WlEvent), e.isGlobalOutput = false) ∧
    (sessionTrace [] true true true [WlEvent.globalXdgManager 1] none 7 0).exitCode = 1 ∧
    ((sessionTrace [] true true true [WlEvent.globalXdgManager 1] none 7 0).trace.filter
        MAct.isLogError).length = 1 ∧
    (sessionTrace [] true true true [WlEvent.globalXdgManager 1] none 7 0).trace.all
        (fun a => !a.isSpawnXway) = true :=
  ⟨by decide, C8_zero_displays [] [WlEvent.globalXdgManager 1] none true 7 0 (by decide)⟩

/-- Successful session segment: once a display is selected and both spawns and
the connection succeed, the trace is fully determined and the launcher
returns 0. -/
theorem sessionTrace_success (env : Env) (es : List WlEvent) (label : Option String)
    (fdXwayland compStatus : Nat) (fo : XwayOutput)
    (h : lookupSelected (runEvents es) label = some fo) :
    sessionTrace env true true true es label fdXwayland compStatus =
      { trace := [.spawnComp env, .unsetVar "WAYLAND_DISPLAY", .unsetVar "WAYLAND_SOCKET",
                  .setVar "WAYLAND_SOCKET" (toString fdXwayland),
                  .spawnXway (envSet (envUnset (envUnset env "WAYLAND_DISPLAY")
                    "WAYLAND_SOCKET") "WAYLAND_SOCKET" (toString fdXwayland)),
                  .waitComp compStatus],
        exitCode := 0 } := by
  unfold sessionTrace
  rw [h]
  simp

theorem envLookup_cons_ne (e : Env) (k k2 v : String) (h : ¬ k2 = k) :
    envLookup ((k2, v) :: e) k = envLookup e k := by
  unfold envLookup
  rw [List.find?_cons_of_neg _ (by simpa using h)]

/-- The environment handed to Xwayland holds no WAYLAND_DISPLAY binding. -/
theorem envLookup_set_unset_unset (e : Env) (v : String) :
    envLookup (envSet (envUnset (envUnset e "WAYLAND_DISPLAY") "WAYLAND_SOCKET")
      "WAYLAND_SOCKET" v) "WAYLAND_DISPLAY" = none := by
  unfold envSet
  rw [envLookup_cons_ne _ _ _ v (by decide)]
  have hfind : (envUnset (envUnset (envUnset e "WAYLAND_DISPLAY") "WAYLAND_SOCKET")
      "WAYLAND_SOCKET").find? (fun p => p.1 = "WAYLAND_DISPLAY") = none := by
    rw [List.find?_eq_none]
    intro p hp
    have h1 : p ∈ envUnset e "WAYLAND_DISPLAY" :=
      (List.mem_filter.mp ((List.mem_filter.mp hp).1)).1
    have h2 := (List.mem_filter.mp h1).2
    simp only [decide_not] at h2
    simpa using h2
  unfold envLookup
  rw [hfind]
  rfl

/-- C1 (amended): in every session whose compositor spawn, connection,
display selection and Xwayland spawn succeed, the launcher blocks on the
compositor's exit as its very last action and then returns 0 regardless of
the compositor's exit status, which waitid discards. -/
theorem C1_amended_supervise (env : Env) (es : List WlEvent) (label : Option String)
    (fdXwayland compStatus : Nat) (fo : XwayOutput)
    (h : lookupSelected (runEvents es) label = some fo) :
    (sessionTrace env true true true es label fdXwayland compStatus).exitCode = 0 ∧
    (sessionTrace env true true true es label fdXwayland compStatus).trace.getLast? =
      some (.waitComp compStatus) := by
  rw [sessionTrace_success env es label fdXwayland compStatus fo h]
  exact ⟨rfl, rfl⟩

/-- Witness for the amended C1: a one-output session whose compositor exits
with status 4 still ends with the launcher returning 0. -/
theorem C1_witness :
    (sessionTrace [] true true true [WlEvent.globalOutput 1] none 7 4).exitCode = 0 ∧
    (sessionTrace [] true true true [WlEvent.globalOutput 1] none 7 4).trace.getLast? =
      some (.waitComp 4) :=
  C1_amended_supervise [] [WlEvent.globalOutput 1] none 7 4 { wl_name := 1 } (by decide)

/-- C3 (amended): the inherited display-session variables are cleared only
after process 1 is spawned with the unmodified environment, but before the new
session's WAYLAND_SOCKET is set and before process 2 is spawned, so the
environment handed to process 2 carries no inherited WAYLAND_DISPLAY and its
WAYLAND_SOCKET is exactly the freshly written descriptor value. -/
theorem C3_amended_clear_order (env : Env) (es : List WlEvent) (label : Option String)
    (fdXwayland compStatus : Nat) (fo : XwayOutput)
    (h : lookupSelected (runEvents es) label = some fo) :
    (sessionTrace env true true true es label fdXwayland compStatus).trace =
      [.spawnComp env, .unsetVar "WAYLAND_DISPLAY", .unsetVar "WAYLAND_SOCKET",
       .setVar "WAYLAND_SOCKET" (toString fdXwayland),
       .spawnXway (envSet (envUnset (envUnset env "WAYLAND_DISPLAY") "WAYLAND_SOCKET")
         "WAYLAND_SOCKET" (toString fdXwayland)),
       .waitComp compStatus] ∧
    envLookup (envSet (envUnset (envUnset env "WAYLAND_DISPLAY") "WAYLAND_SOCKET")
      "WAYLAND_SOCKET" (toString fdXwayland)) "WAYLAND_DISPLAY" = none ∧
    envLookup (envSet (envUnset (envUnset env "WAYLAND_DISPLAY") "WAYLAND_SOCKET")
      "WAYLAND_SOCKET" (toString fdXwayland)) "WAYLAND_SOCKET" =
      some (toString fdXwayland) := by
  rw [sessionTrace_success env es label fdXwayland compStatus fo h]
  exact ⟨rfl, envLookup_set_unset_unset env (toString fdXwayland), rfl⟩

/-- Witness for the amended C3: starting from an environment holding a stale
WAYLAND_DISPLAY, the session events occur in the amended order and the
Xwayland environment is clean. -/
theorem C3_witness :
    (sessionTrace [("WAYLAND_DISPLAY", "stale")] true true true [WlEvent.globalOutput 1]
        none 7 0).trace =
      [.spawnComp [("WAYLAND_DISPLAY", "stale")], .unsetVar "WAYLAND_DISPLAY",
       .unsetVar "WAYLAND_SOCKET", .setVar "WAYLAND_SOCKET" (toString 7),
       .spawnXway (envSet (envUnset (envUnset [("WAYLAND_DISPLAY", "stale")]
         "WAYLAND_DISPLAY") "WAYLAND_SOCKET") "WAYLAND_SOCKET" (toString 7)),
       .waitComp 0] ∧
    envLookup (envSet (envUnset (envUnset [("WAYLAND_DISPLAY", "stale")] "WAYLAND_DISPLAY")
      "WAYLAND_SOCKET") "WAYLAND_SOCKET" (toString 7)) "WAYLAND_DISPLAY" = none ∧
    envLookup (envSet (envUnset (envUnset [("WAYLAND_DISPLAY", "stale")] "WAYLAND_DISPLAY")
      "WAYLAND_SOCKET") "WAYLAND_SOCKET" (toString 7)) "WAYLAND_SOCKET" =
      some (toString 7) :=
  C3_amended_clear_order [("WAYLAND_DISPLAY", "stale")] [WlEvent.globalOutput 1] none 7 0
    { wl_name := 1 } (by decide)

end Wayback
